import Mathlib

/-!
# Verification of the ad-tracker ingestion and analytics pipeline

Shallow embedding of the Go sources of the `ad_services` repository
(`ad-tracker/internal/services/queue.go`,
`ad-tracker/internal/handlers/handlers.go`,
`ad-tracker/internal/metrics/prometues.go`,
`ad-tracker/internal/models` — the `Ad` / `ClickEvent` / `ClickRequest`
models).  Wall-clock instants are modelled as `Int` epoch seconds, Go
channels as bounded lists, and the effectful collaborators (database,
Kafka writer) as boolean/function oracles that record which call sites
fired.
-/

namespace AdTracker

/-- `models.ClickRequest` (ingress DTO): `ad_id` required, `timestamp`
optional `int64` epoch seconds (absent decodes to `0`),
`video_playback_time` optional `int64`. -/
structure ClickRequest where
  adID : Nat
  timestamp : Int
  videoPlaybackTime : Int
  deriving Repr, DecidableEq

/-- `models.ClickEvent`: the persisted click record (database identity,
`processed` and `created_at` are assigned by the store and omitted). -/
structure ClickEvent where
  adID : Nat
  timestamp : Int
  ipAddress : String
  videoPlaybackTime : Int
  userAgent : String
  deriving Repr, DecidableEq

/-- `models.Ad`: the ad record (only the fields the handlers read). -/
structure Ad where
  id : Nat
  imageURL : String
  targetURL : String
  title : String
  active : Bool
  deriving Repr, DecidableEq

/-- `services.ClickQueue`: the buffered Go channel `events` of capacity
`bufferSize`, modelled as the list of events currently buffered plus the
fixed capacity.  The `cancelled` flag records whether the lifecycle
controller has already signalled cancellation of the processor context;
the Go `Enqueue` never reads it, which is exactly what the shutdown
claims are about. -/
structure ClickQueue where
  capacity : Nat
  buffer : List ClickEvent
  cancelled : Bool
  deriving Repr, DecidableEq

/-- `services.NewClickQueue`: fresh queue with an empty channel. -/
def NewClickQueue (bufferSize : Nat) : ClickQueue :=
  { capacity := bufferSize, buffer := [], cancelled := false }

/-- Capacity used by `handlers.NewServer`: `NewClickQueue(db, logger, 10000)`. -/
def serverQueueCapacity : Nat := 10000

/-- `services.ClickQueue.Enqueue`: a `select` with a `default` branch on
the buffered channel.  The send succeeds exactly when the buffer has
free capacity; otherwise the `default` branch logs a warning and
returns `false`.  Returns the flag together with the updated queue. -/
def Enqueue (q : ClickQueue) (event : ClickEvent) : Bool × ClickQueue :=
  if q.buffer.length < q.capacity then
    (true, { q with buffer := q.buffer ++ [event] })
  else
    (false, q)

/-- Names of the four collectors registered in
`metrics/prometues.go` (`ClicksReceived`, `ClicksProcessed`,
`ResponseTime`, `QueueSize`).  No dropped-batch collector is declared
anywhere in that file. -/
def registeredMetricNames : List String :=
  ["ad_clicks_received_total", "ad_clicks_processed_total",
   "http_request_duration_seconds", "click_queue_size"]

/-- `maxRetries` in `services.ClickQueue.processBatch`. -/
def maxRetries : Nat := 3

/-- Observable effects of one `processBatch` call: how many
`db.Create` attempts ran, the `time.Sleep` durations in order (seconds),
whether some attempt succeeded, which Prometheus counters were bumped
(name, amount), how many warn-level and whether an error-level log
fired. -/
structure BatchRunResult where
  attempts : Nat
  sleepsSeconds : List Nat
  succeeded : Bool
  counterIncrements : List (String × Nat)
  warnLogs : Nat
  errorLogged : Bool
  deriving Repr, DecidableEq

/-- The `for i := 0; i < maxRetries; i++` loop body of `processBatch`,
with `fuel` iterations remaining and `i` the current attempt index.
`insertOk i` is the database oracle: whether `db.Create(&events)`
succeeds on attempt `i`.  A failed attempt logs a warning, logs at
error level when it is the last one (`i == maxRetries-1`), sleeps
`(i+1)` seconds and continues; a successful attempt adds the batch
length to `ClicksProcessed` and breaks. -/
def processBatchGo (len : Nat) (insertOk : Nat → Bool) : Nat → Nat → BatchRunResult
  | 0, _ =>
      { attempts := 0, sleepsSeconds := [], succeeded := false,
        counterIncrements := [], warnLogs := 0, errorLogged := false }
  | fuel + 1, i =>
      if insertOk i then
        { attempts := 1, sleepsSeconds := [], succeeded := true,
          counterIncrements := [("ad_clicks_processed_total", len)],
          warnLogs := 0, errorLogged := false }
      else
        let rest := processBatchGo len insertOk fuel (i + 1)
        { attempts := rest.attempts + 1,
          sleepsSeconds := (i + 1) :: rest.sleepsSeconds,
          succeeded := rest.succeeded,
          counterIncrements := rest.counterIncrements,
          warnLogs := rest.warnLogs + 1,
          errorLogged := decide (i + 1 = maxRetries) || rest.errorLogged }

/-- `services.ClickQueue.processBatch`: early-returns on an empty
batch, otherwise runs the retry loop. -/
def processBatch (events : List ClickEvent) (insertOk : Nat → Bool) : BatchRunResult :=
  if events.length = 0 then
    { attempts := 0, sleepsSeconds := [], succeeded := false,
      counterIncrements := [], warnLogs := 0, errorLogged := false }
  else
    processBatchGo events.length insertOk maxRetries 0

/-- One wakeup of the `select` in `StartProcessor`: context cancelled,
an event read from the channel, or the batch timer fired. -/
inductive BatcherInput
  | cancelSignal
  | eventArrived (e : ClickEvent)
  | timerFired
  deriving Repr, DecidableEq

/-- `batchSize` in `services.ClickQueue.StartProcessor`. -/
def batchSize : Nat := 100

/-- `services.ClickQueue.StartProcessor` as a function from the pending
batch and the sequence of `select` wakeups to the list of batches
flushed (passed to `processBatch`), in order.  On cancellation the
pending batch is flushed if non-empty and the loop returns, ignoring
the rest of the trace; an arriving event is appended and the batch is
flushed once it reaches `batchSize`; a timer tick flushes a non-empty
batch. -/
def StartProcessor (batch : List ClickEvent) : List BatcherInput → List (List ClickEvent)
  | [] => []
  | .cancelSignal :: _ => if batch.length > 0 then [batch] else []
  | .eventArrived e :: rest =>
      let b := batch ++ [e]
      if b.length ≥ batchSize then b :: StartProcessor [] rest
      else StartProcessor b rest
  | .timerFired :: rest =>
      if batch.length > 0 then batch :: StartProcessor [] rest
      else StartProcessor batch rest

/-- The batcher's flushes, each run through the `processBatch` retry
policy with database oracle `insertOk`. -/
def StartProcessorRuns (batch : List ClickEvent) (insertOk : Nat → Bool)
    (inputs : List BatcherInput) : List BatchRunResult :=
  (StartProcessor batch inputs).map (fun b => processBatch b insertOk)

/-- Outcome of `s.db.First(&ad, req.AdID)` in `PostClick`: the row was
found, GORM's record-not-found error, or a storage/driver error.  The
handler only tests `err != nil`, so the two error cases take the same
branch. -/
inductive LookupOutcome
  | found (ad : Ad)
  | errRecordNotFound
  | errStorage
  deriving Repr, DecidableEq

/-- A JSON response from a handler, tagged with its status code. -/
inductive HttpResponse
  | badRequest (msg : String)
  | notFound (msg : String)
  | internalError (msg : String)
  | ok (body : String)
  deriving Repr, DecidableEq

/-- Observable effects of one `PostClick` call besides the queue
update: the response, whether the event went into the queue, how many
synchronous `db.Create` fallback calls ran and what they inserted, and
the serialization / Kafka / metrics call sites that fired. -/
structure PostClickResult where
  response : HttpResponse
  enqueued : Bool
  fallbackInsertAttempts : Nat
  fallbackInserted : Option ClickEvent
  marshalErrorLogged : Bool
  kafkaWriteAttempted : Bool
  kafkaErrorLogged : Bool
  clicksReceivedIncrementedFor : Option Nat
  deriving Repr, DecidableEq

/-- Construction of the `ClickEvent` in `PostClick`: server fields are
captured from the connection, `Timestamp` starts as `time.Now()` and is
overwritten with `time.Unix(req.Timestamp, 0)` when `req.Timestamp > 0`.
Instants are epoch seconds, so `time.Unix(t, 0)` is just `t`. -/
def mkClickEvent (req : ClickRequest) (now : Int) (clientIP userAgent : String) : ClickEvent :=
  { adID := req.adID
    timestamp := if req.timestamp > 0 then req.timestamp else now
    ipAddress := clientIP
    videoPlaybackTime := req.videoPlaybackTime
    userAgent := userAgent }

/-- Tail of `PostClick` after the event is in the queue or persisted:
increment `ClicksReceived{ad_id}`, set the queue gauge, serialize the
event (`json.Marshal`; failure logs and returns 500
"Internal server error"), then write to Kafka (failure is only
logged), then 200 `{"status":"recorded"}`. -/
def finishClick (req : ClickRequest) (enqueued : Bool)
    (fallbackInserted : Option ClickEvent) (fallbackAttempts : Nat)
    (marshalOk kafkaOk : Bool) : PostClickResult :=
  if marshalOk then
    { response := .ok "recorded"
      enqueued := enqueued
      fallbackInsertAttempts := fallbackAttempts
      fallbackInserted := fallbackInserted
      marshalErrorLogged := false
      kafkaWriteAttempted := true
      kafkaErrorLogged := !kafkaOk
      clicksReceivedIncrementedFor := some req.adID }
  else
    { response := .internalError "Internal server error"
      enqueued := enqueued
      fallbackInsertAttempts := fallbackAttempts
      fallbackInserted := fallbackInserted
      marshalErrorLogged := true
      kafkaWriteAttempted := false
      kafkaErrorLogged := false
      clicksReceivedIncrementedFor := some req.adID }

/-- `handlers.Server.PostClick`.  Oracles: `decoded` is the result of
`ShouldBindJSON` (`none` = parse failure), `lookupAd` the database
lookup by primary key, `now` the server wall clock in epoch seconds,
`insertOk` whether the synchronous fallback `db.Create` succeeds,
`marshalOk` whether `json.Marshal` succeeds, `kafkaOk` whether
`KafkaWriter.WriteMessages` succeeds.  Returns the observable result
and the updated queue. -/
def PostClick (q : ClickQueue) (decoded : Option ClickRequest)
    (lookupAd : Nat → LookupOutcome) (now : Int) (clientIP userAgent : String)
    (insertOk marshalOk kafkaOk : Bool) : PostClickResult × ClickQueue :=
  match decoded with
  | none =>
      ({ response := .badRequest "bind error"
         enqueued := false, fallbackInsertAttempts := 0, fallbackInserted := none
         marshalErrorLogged := false, kafkaWriteAttempted := false
         kafkaErrorLogged := false, clicksReceivedIncrementedFor := none }, q)
  | some req =>
      match lookupAd req.adID with
      | .found _ =>
          let ev := mkClickEvent req now clientIP userAgent
          let acc := Enqueue q ev
          if acc.1 then
            (finishClick req true none 0 marshalOk kafkaOk, acc.2)
          else if insertOk then
            (finishClick req false (some ev) 1 marshalOk kafkaOk, acc.2)
          else
            ({ response := .internalError "Failed to record click"
               enqueued := false, fallbackInsertAttempts := 1, fallbackInserted := none
               marshalErrorLogged := false, kafkaWriteAttempted := false
               kafkaErrorLogged := false, clicksReceivedIncrementedFor := none }, acc.2)
      | _ =>
          ({ response := .notFound "Ad not found"
             enqueued := false, fallbackInsertAttempts := 0, fallbackInserted := none
             marshalErrorLogged := false, kafkaWriteAttempted := false
             kafkaErrorLogged := false, clicksReceivedIncrementedFor := none }, q)

/-- `models.AnalyticsResponse` (the CTR field is never populated by
`GetAdAnalytics` and is omitted from JSON when zero). -/
structure AnalyticsResponse where
  adID : Nat
  clickCount : Int
  lastHour : Int
  lastDay : Int
  deriving Repr, DecidableEq

/-- The debug record-count block `GetAnalytics` assembles from extra
`Count` queries (`total_records`, `filtered_records`,
`filtered_records_today`). -/
structure DebugCounts where
  totalRecords : Int
  filteredRecords : Int
  filteredRecordsToday : Int
  deriving Repr, DecidableEq

/-- The value under the `analytics` key: a single object when `ad_id`
was supplied, an array otherwise. -/
inductive AnalyticsPayload
  | single (a : AnalyticsResponse)
  | many (l : List AnalyticsResponse)
  deriving Repr, DecidableEq

/-- The JSON object of a 200 analytics response: the `analytics` value
plus the optional `debug` object. -/
structure AnalyticsBody where
  analytics : AnalyticsPayload
  debug : Option DebugCounts
  deriving Repr, DecidableEq

/-- Result of a `GetAnalytics` call. -/
inductive AnalyticsHttpResult
  | badRequest (msg : String)
  | ok (body : AnalyticsBody)
  deriving Repr, DecidableEq

/-- Numeric value of a decimal digit character (48 is the code of 0). -/
def digitVal (c : Char) : Nat := c.toNat - 48

/-- `strconv.ParseUint(s, 10, 32)`: accepts a non-empty string of
base-10 digits denoting a value below `2^32`, rejects anything else. -/
def parseUint32 (s : String) : Option Nat :=
  if s.data = [] then none
  else if s.data.all (fun c => 48 ≤ c.toNat && c.toNat ≤ 57) then
    if s.data.foldl (fun n c => n * 10 + digitVal c) 0 < 2 ^ 32 then
      some (s.data.foldl (fun n c => n * 10 + digitVal c) 0)
    else none
  else none

/-- The `switch timeframe` in `GetAnalytics`, in seconds: `1h`, `24h`,
`7d`, `all` (10 * 365 days), anything else 24 h. -/
def timeframeDuration : String → Nat
  | "1h" => 3600
  | "24h" => 24 * 3600
  | "7d" => 7 * 24 * 3600
  | "all" => 10 * 365 * 24 * 3600
  | _ => 24 * 3600

/-- `since := time.Now().UTC().Add(-duration)` with the timeframe taken
from `c.DefaultQuery("timeframe", "24h")`. -/
def analyticsSince (timeframeParam : Option String) (nowUTC : Int) : Int :=
  nowUTC - Int.ofNat (timeframeDuration (timeframeParam.getD "24h"))

/-- `handlers.Server.GetAnalytics`.  `adIDParam`/`timeframeParam` are
the query parameters (`none` = absent), `nowUTC` the captured clock,
`repoSingle`/`repoAll` the `AnalyticsRepository` oracles and
`debugCounts` the extra record counts.  An unparseable non-empty
`ad_id` yields 400 "Invalid ad_id"; otherwise a 200 body whose
`analytics` value is a single object (with `ad_id`) or an array
(without), always accompanied by the `debug` object. -/
def GetAnalytics (adIDParam timeframeParam : Option String) (nowUTC : Int)
    (repoSingle : Nat → Int → AnalyticsResponse)
    (repoAll : Int → List AnalyticsResponse)
    (debugCounts : DebugCounts) : AnalyticsHttpResult :=
  let adIDStr := adIDParam.getD ""
  let since := analyticsSince timeframeParam nowUTC
  if adIDStr ≠ "" then
    match parseUint32 adIDStr with
    | none => .badRequest "Invalid ad_id"
    | some adID =>
        .ok { analytics := .single (repoSingle adID since), debug := some debugCounts }
  else
    .ok { analytics := .many (repoAll since), debug := some debugCounts }

/-! ## Concrete fixtures used by witnesses and counterexamples -/

/-- Concrete click event. -/
def evA : ClickEvent :=
  { adID := 1, timestamp := 5, ipAddress := "203.0.113.7",
    videoPlaybackTime := 9, userAgent := "agent" }

/-- Concrete ad row with id 1. -/
def adA : Ad :=
  { id := 1, imageURL := "img", targetURL := "tgt", title := "t", active := true }

/-- Concrete request for ad 1 with a positive client timestamp. -/
def reqA : ClickRequest := { adID := 1, timestamp := 5, videoPlaybackTime := 9 }

/-- Request whose client timestamp decoded to 0 (field absent or
explicitly zero in the JSON body). -/
def reqT0 : ClickRequest := { adID := 1, timestamp := 0, videoPlaybackTime := 9 }

/-- Lookup oracle: every id resolves to `adA`. -/
def lookupFoundA : Nat → LookupOutcome := fun _ => .found adA

/-- Lookup oracle: every lookup fails with a storage/driver error. -/
def lookupStorage : Nat → LookupOutcome := fun _ => .errStorage

/-- A queue with no free capacity at all (occupancy = capacity = 0). -/
def fullQueue0 : ClickQueue := { capacity := 0, buffer := [], cancelled := false }

/-- An empty one-slot queue whose processor context has already been
cancelled. -/
def cancelledQueue1 : ClickQueue := { capacity := 1, buffer := [], cancelled := true }

/-- Database oracle for the batcher: the first insert attempt fails,
the second succeeds. -/
def okSecond : Nat → Bool := fun i => decide (i = 1)

/-! ## Claims -/

/-- C1: `Enqueue` is non-blocking and returns accepted exactly when the
buffer has free capacity: below capacity the event is appended and the
call returns `true`; on a full buffer it returns `false` immediately
with the queue unchanged; and in every case the existing buffer is
preserved in place (no displacement, no drops). -/
theorem enqueue_contract (q : ClickQueue) (e : ClickEvent) :
    (q.buffer.length < q.capacity →
      (Enqueue q e).1 = true ∧ (Enqueue q e).2.buffer = q.buffer ++ [e]) ∧
    (q.capacity ≤ q.buffer.length →
      (Enqueue q e).1 = false ∧ (Enqueue q e).2 = q) ∧
    ∃ tail, (Enqueue q e).2.buffer = q.buffer ++ tail := by
  by_cases h : q.buffer.length < q.capacity
  · refine ⟨fun _ => ?_, fun hc => absurd h (not_lt.mpr hc), [e], ?_⟩ <;>
      simp [Enqueue, h]
  · refine ⟨fun hc => absurd hc h, fun _ => ?_, [], ?_⟩ <;> simp [Enqueue, h]

/-- C1 witness: the fresh two-slot queue accepts `evA` and appends it. -/
theorem enqueue_contract_witness :
    (NewClickQueue 2).buffer.length < (NewClickQueue 2).capacity ∧
    ((Enqueue (NewClickQueue 2) evA).1 = true ∧
      (Enqueue (NewClickQueue 2) evA).2.buffer = (NewClickQueue 2).buffer ++ [evA]) :=
  ⟨by decide, (enqueue_contract (NewClickQueue 2) evA).1 (by decide)⟩

/-- C3 counterexample: with a one-event batch and a database failing
every attempt, the run increments no Prometheus counter at all — in
particular no dropped-batch counter, and none is registered in
`metrics/prometues.go`. -/
theorem processBatch_dropped_counter_counterexample :
    (processBatch [evA] (fun _ => false)).counterIncrements = [] ∧
    (processBatch [evA] (fun _ => false)).succeeded = false ∧
    (processBatch [evA] (fun _ => false)).errorLogged = true ∧
    (processBatch [evA] (fun _ => false)).sleepsSeconds = [1, 2, 3] ∧
    "dropped_batches" ∉ registeredMetricNames :=
  ⟨rfl, rfl, rfl, rfl, by decide⟩

/-- C3 (amended): for every non-empty batch the flush makes at most 3
insert attempts; the sleeps are `i + 1` seconds after the `i`-th failed
attempt, in order (the code also sleeps after the final failed
attempt); if all 3 attempts fail it logs at error level and discards
the batch without incrementing any counter; a successful attempt adds
the batch length to `clicks_processed`. -/
theorem processBatch_retry_policy (events : List ClickEvent) (insertOk : Nat → Bool)
    (hne : events ≠ []) :
    (processBatch events insertOk).attempts ≤ maxRetries ∧
    ((insertOk 0 = false ∧ insertOk 1 = false ∧ insertOk 2 = false) →
      (processBatch events insertOk).succeeded = false ∧
      (processBatch events insertOk).errorLogged = true ∧
      (processBatch events insertOk).counterIncrements = [] ∧
      (processBatch events insertOk).sleepsSeconds = [1, 2, 3]) ∧
    ((processBatch events insertOk).succeeded = true →
      (processBatch events insertOk).counterIncrements =
        [("ad_clicks_processed_total", events.length)]) ∧
    (processBatch events insertOk).sleepsSeconds =
      (List.range ((processBatch events insertOk).attempts -
        (if (processBatch events insertOk).succeeded then 1 else 0))).map (fun i => i + 1) := by
  have hlen : ¬ events.length = 0 := by
    simpa [List.length_eq_zero] using hne
  cases h0 : insertOk 0 <;> cases h1 : insertOk 1 <;> cases h2 : insertOk 2 <;>
    simp [processBatch, hlen, processBatchGo, maxRetries, h0, h1, h2,
      List.range_succ]

/-- C3 witness: one-event batch, first attempt fails and the second
succeeds — two attempts, one 1-second sleep, counter bumped by 1. -/
theorem processBatch_retry_policy_witness :
    ([evA] : List ClickEvent) ≠ [] ∧
    ((processBatch [evA] okSecond).attempts ≤ maxRetries ∧
     ((okSecond 0 = false ∧ okSecond 1 = false ∧ okSecond 2 = false) →
       (processBatch [evA] okSecond).succeeded = false ∧
       (processBatch [evA] okSecond).errorLogged = true ∧
       (processBatch [evA] okSecond).counterIncrements = [] ∧
       (processBatch [evA] okSecond).sleepsSeconds = [1, 2, 3]) ∧
     ((processBatch [evA] okSecond).succeeded = true →
       (processBatch [evA] okSecond).counterIncrements =
         [("ad_clicks_processed_total", ([evA] : List ClickEvent).length)]) ∧
     (processBatch [evA] okSecond).sleepsSeconds =
       (List.range ((processBatch [evA] okSecond).attempts -
         (if (processBatch [evA] okSecond).succeeded then 1 else 0))).map (fun i => i + 1)) :=
  ⟨by decide, processBatch_retry_policy [evA] okSecond (by decide)⟩

/-- C4 counterexample: `Enqueue` does not consult cancellation — on an
empty one-slot queue whose processor context was already cancelled it
returns accepted, not rejected. -/
theorem enqueue_after_cancel_counterexample :
    cancelledQueue1.cancelled = true ∧ (Enqueue cancelledQueue1 evA).1 = true :=
  ⟨rfl, rfl⟩

/-- C4 (amended): on cancellation the batcher flushes the pending
non-empty batch exactly once through the same `processBatch` retry
policy and returns, ignoring the rest of the trace (an empty batch is
not flushed); but cancellation does not gate `Enqueue`: acceptance
depends only on buffer occupancy versus capacity, whatever the
`cancelled` flag. -/
theorem startProcessor_cancel (batch : List ClickEvent) (rest : List BatcherInput)
    (insertOk : Nat → Bool) (q : ClickQueue) (e : ClickEvent)
    (hne : batch ≠ []) :
    StartProcessorRuns batch insertOk (.cancelSignal :: rest) =
      [processBatch batch insertOk] ∧
    StartProcessorRuns [] insertOk (.cancelSignal :: rest) = [] ∧
    (Enqueue q e).1 = decide (q.buffer.length < q.capacity) := by
  have hlen : 0 < batch.length := List.length_pos.mpr hne
  refine ⟨?_, ?_, ?_⟩
  · simp [StartProcessorRuns, StartProcessor, hlen]
  · simp [StartProcessorRuns, StartProcessor]
  · by_cases h : q.buffer.length < q.capacity <;> simp [Enqueue, h]

/-- C4 witness: cancelling with the one-event batch pending flushes it
exactly once, and `Enqueue` on the cancelled one-slot queue still
reports the occupancy test. -/
theorem startProcessor_cancel_witness :
    ([evA] : List ClickEvent) ≠ [] ∧
    (StartProcessorRuns [evA] okSecond (.cancelSignal :: []) =
       [processBatch [evA] okSecond] ∧
     StartProcessorRuns [] okSecond (.cancelSignal :: []) = [] ∧
     (Enqueue cancelledQueue1 evA).1 =
       decide (cancelledQueue1.buffer.length < cancelledQueue1.capacity)) :=
  ⟨by decide, startProcessor_cancel [evA] [] okSecond cancelledQueue1 evA (by decide)⟩

/-- C2: past decoding and a successful ad lookup, when the queue
rejects the handler makes exactly one synchronous `db.Create` (none
when the queue accepts); a failed fallback insert yields 500
"Failed to record click"; and a 200 response implies the constructed
event is in the queue or was inserted by the fallback. -/
theorem postClick_overflow_and_ack (q : ClickQueue) (req : ClickRequest)
    (lookupAd : Nat → LookupOutcome) (ad : Ad) (now : Int) (ip ua : String)
    (insertOk marshalOk kafkaOk : Bool)
    (hlook : lookupAd req.adID = .found ad) :
    (q.capacity ≤ q.buffer.length →
      (PostClick q (some req) lookupAd now ip ua insertOk marshalOk kafkaOk).1.fallbackInsertAttempts = 1) ∧
    (q.buffer.length < q.capacity →
      (PostClick q (some req) lookupAd now ip ua insertOk marshalOk kafkaOk).1.fallbackInsertAttempts = 0) ∧
    (q.capacity ≤ q.buffer.length → insertOk = false →
      (PostClick q (some req) lookupAd now ip ua insertOk marshalOk kafkaOk).1.response =
        .internalError "Failed to record click") ∧
    ((PostClick q (some req) lookupAd now ip ua insertOk marshalOk kafkaOk).1.response =
        .ok "recorded" →
      mkClickEvent req now ip ua ∈
          (PostClick q (some req) lookupAd now ip ua insertOk marshalOk kafkaOk).2.buffer ∨
        (PostClick q (some req) lookupAd now ip ua insertOk marshalOk kafkaOk).1.fallbackInserted =
          some (mkClickEvent req now ip ua)) := by
  by_cases hcap : q.buffer.length < q.capacity
  · have hle : ¬ q.capacity ≤ q.buffer.length := not_le.mpr hcap
    cases insertOk <;> cases marshalOk <;>
      simp [PostClick, hlook, Enqueue, finishClick, hcap, hle]
  · have hle : q.capacity ≤ q.buffer.length := not_lt.mp hcap
    cases insertOk <;> cases marshalOk <;>
      simp [PostClick, hlook, Enqueue, finishClick, hcap, hle]

/-- C2 witness: on the zero-capacity queue with a working database the
overflow path makes exactly one synchronous insert and responds 200. -/
theorem postClick_overflow_and_ack_witness :
    lookupFoundA reqA.adID = .found adA ∧
    fullQueue0.capacity ≤ fullQueue0.buffer.length ∧
    (PostClick fullQueue0 (some reqA) lookupFoundA 0 "ip" "ua" true true true).1.fallbackInsertAttempts = 1 :=
  ⟨rfl, by decide,
    (postClick_overflow_and_ack fullQueue0 reqA lookupFoundA adA 0 "ip" "ua"
      true true true rfl).1 (by decide)⟩

/-- C5 counterexample: a storage-level lookup failure is answered with
404 "Ad not found", not 500. -/
theorem postClick_storage_error_counterexample :
    lookupStorage reqA.adID = .errStorage ∧
    (PostClick (NewClickQueue 2) (some reqA) lookupStorage 0 "ip" "ua" true true true).1.response =
      .notFound "Ad not found" :=
  ⟨rfl, rfl⟩

/-- C5 (amended): the handler does not discriminate the lookup failure
cause — every failed ad lookup, record-not-found and storage/driver
errors alike, yields 404 "Ad not found". -/
theorem postClick_lookup_error (q : ClickQueue) (req : ClickRequest)
    (lookupAd : Nat → LookupOutcome) (now : Int) (ip ua : String)
    (insertOk marshalOk kafkaOk : Bool)
    (h : lookupAd req.adID = .errRecordNotFound ∨ lookupAd req.adID = .errStorage) :
    (PostClick q (some req) lookupAd now ip ua insertOk marshalOk kafkaOk).1.response =
      .notFound "Ad not found" := by
  rcases h with h | h <;> simp [PostClick, h]

/-- C5 witness: the amended claim at a concrete storage failure. -/
theorem postClick_lookup_error_witness :
    (lookupStorage reqA.adID = .errRecordNotFound ∨ lookupStorage reqA.adID = .errStorage) ∧
    (PostClick (NewClickQueue 3) (some reqA) lookupStorage 1 "ip" "ua" true true true).1.response =
      .notFound "Ad not found" :=
  ⟨Or.inr rfl,
    postClick_lookup_error (NewClickQueue 3) reqA lookupStorage 1 "ip" "ua"
      true true true (Or.inr rfl)⟩

/-- C6 counterexample: with the queue accepting and `json.Marshal`
failing, the serialization failure in the publish step changes the
response to 500 "Internal server error" even though the event was
already enqueued. -/
theorem postClick_marshal_failure_counterexample :
    (PostClick (NewClickQueue 2) (some reqA) lookupFoundA 0 "ip" "ua" true false true).1.enqueued = true ∧
    (PostClick (NewClickQueue 2) (some reqA) lookupFoundA 0 "ip" "ua" true false true).1.response =
      .internalError "Internal server error" :=
  ⟨rfl, rfl⟩

/-- C6 (amended): for a click that was enqueued or persisted by the
fallback, a Kafka-write failure is only logged — the response is still
200 "recorded", with the write attempted synchronously before
responding; a serialization failure, by contrast, is answered with 500
"Internal server error". -/
theorem postClick_publish_failure (q : ClickQueue) (req : ClickRequest)
    (lookupAd : Nat → LookupOutcome) (ad : Ad) (now : Int) (ip ua : String)
    (insertOk kafkaOk : Bool)
    (hlook : lookupAd req.adID = .found ad)
    (hpersist : q.buffer.length < q.capacity ∨ insertOk = true) :
    ((PostClick q (some req) lookupAd now ip ua insertOk true false).1.response =
        .ok "recorded" ∧
      (PostClick q (some req) lookupAd now ip ua insertOk true false).1.kafkaErrorLogged = true ∧
      (PostClick q (some req) lookupAd now ip ua insertOk true false).1.kafkaWriteAttempted = true) ∧
    (PostClick q (some req) lookupAd now ip ua insertOk false kafkaOk).1.response =
      .internalError "Internal server error" := by
  rcases hpersist with hcap | hins
  · constructor <;> simp [PostClick, hlook, Enqueue, hcap, finishClick]
  · subst hins
    by_cases hcap : q.buffer.length < q.capacity <;>
      constructor <;> simp [PostClick, hlook, Enqueue, hcap, finishClick]

/-- C6 witness: the amended claim on an empty two-slot queue. -/
theorem postClick_publish_failure_witness :
    lookupFoundA reqA.adID = .found adA ∧
    ((NewClickQueue 2).buffer.length < (NewClickQueue 2).capacity ∨ (true : Bool) = true) ∧
    (((PostClick (NewClickQueue 2) (some reqA) lookupFoundA 0 "ip" "ua" true true false).1.response =
        .ok "recorded" ∧
      (PostClick (NewClickQueue 2) (some reqA) lookupFoundA 0 "ip" "ua" true true false).1.kafkaErrorLogged = true ∧
      (PostClick (NewClickQueue 2) (some reqA) lookupFoundA 0 "ip" "ua" true true false).1.kafkaWriteAttempted = true) ∧
     (PostClick (NewClickQueue 2) (some reqA) lookupFoundA 0 "ip" "ua" true false true).1.response =
       .internalError "Internal server error") :=
  ⟨rfl, Or.inl (by decide),
    postClick_publish_failure (NewClickQueue 2) reqA lookupFoundA adA 0 "ip" "ua"
      true true rfl (Or.inl (by decide))⟩

/-- C7: the constructed event's timestamp is the client-supplied epoch
seconds when strictly positive and the server wall clock otherwise; in
particular a zero client timestamp yields the server clock, not epoch
zero. -/
theorem clickEvent_timestamp (req : ClickRequest) (now : Int) (ip ua : String) :
    (0 < req.timestamp → (mkClickEvent req now ip ua).timestamp = req.timestamp) ∧
    (req.timestamp ≤ 0 → (mkClickEvent req now ip ua).timestamp = now) := by
  constructor <;> intro h
  · simp [mkClickEvent, h]
  · simp [mkClickEvent, not_lt.mpr h]

/-- C7 witness: a request with timestamp 0 gets the server clock 99. -/
theorem clickEvent_timestamp_witness :
    reqT0.timestamp ≤ 0 ∧ (mkClickEvent reqT0 99 "ip" "ua").timestamp = 99 :=
  ⟨by decide, (clickEvent_timestamp reqT0 99 "ip" "ua").2 (by decide)⟩

/-- C8: the timeframe parameter maps `1h` to one hour, `24h` to 24
hours, `7d` to 7 days and `all` to ten years (10 × 365 days) before
now; an absent parameter defaults to 24 h, every unknown value silently
maps to 24 h, and `since` is `now_utc` minus the window. -/
theorem analytics_timeframe (s : String) (nowUTC : Int)
    (hs : s ≠ "1h" ∧ s ≠ "24h" ∧ s ≠ "7d" ∧ s ≠ "all") :
    timeframeDuration "1h" = 3600 ∧
    timeframeDuration "24h" = 24 * 3600 ∧
    timeframeDuration "7d" = 7 * 24 * 3600 ∧
    timeframeDuration "all" = 10 * 365 * 24 * 3600 ∧
    timeframeDuration s = 24 * 3600 ∧
    analyticsSince none nowUTC = nowUTC - 24 * 3600 ∧
    analyticsSince (some s) nowUTC = nowUTC - 24 * 3600 ∧
    analyticsSince (some "1h") nowUTC = nowUTC - 3600 := by
  obtain ⟨h1, h2, h3, h4⟩ := hs
  refine ⟨rfl, by norm_num [timeframeDuration], by norm_num [timeframeDuration],
    by norm_num [timeframeDuration], ?_, ?_, ?_, ?_⟩
  · simp [timeframeDuration, h1, h2, h3, h4]
  · norm_num [analyticsSince, timeframeDuration]
  · simp [analyticsSince, timeframeDuration, h1, h2, h3, h4]
  · norm_num [analyticsSince, timeframeDuration]

/-- C8 witness: the unknown value "2h" maps to 24 h. -/
theorem analytics_timeframe_witness :
    (("2h" : String) ≠ "1h" ∧ ("2h" : String) ≠ "24h" ∧
      ("2h" : String) ≠ "7d" ∧ ("2h" : String) ≠ "all") ∧
    (timeframeDuration "1h" = 3600 ∧
     timeframeDuration "24h" = 24 * 3600 ∧
     timeframeDuration "7d" = 7 * 24 * 3600 ∧
     timeframeDuration "all" = 10 * 365 * 24 * 3600 ∧
     timeframeDuration "2h" = 24 * 3600 ∧
     analyticsSince none 1000 = 1000 - 24 * 3600 ∧
     analyticsSince (some "2h") 1000 = 1000 - 24 * 3600 ∧
     analyticsSince (some "1h") 1000 = 1000 - 3600) :=
  ⟨by decide, analytics_timeframe "2h" 1000 (by decide)⟩

/-- Repository oracle: the per-ad analytics triple for any id. -/
def repoSingleA : Nat → Int → AnalyticsResponse :=
  fun adID _ => { adID := adID, clickCount := 3, lastHour := 1, lastDay := 2 }

/-- Repository oracle: the all-ads analytics list. -/
def repoAllA : Int → List AnalyticsResponse :=
  fun _ => [{ adID := 1, clickCount := 3, lastHour := 1, lastDay := 2 }]

/-- Concrete debug record counts. -/
def debugA : DebugCounts :=
  { totalRecords := 7, filteredRecords := 3, filteredRecordsToday := 2 }

/-- C9: evaluated at the failing inputs, both branches of
`GetAnalytics` return 200 with the `analytics` value of the claimed
shape — an array without `ad_id`, a single object with it — but the
body always carries an additional `debug` object, contradicting the
debug-free public contract. -/
theorem getAnalytics_debug_present :
    GetAnalytics none none 0 repoSingleA repoAllA debugA =
      .ok { analytics :=
              .many [{ adID := 1, clickCount := 3, lastHour := 1, lastDay := 2 }],
            debug := some debugA } ∧
    GetAnalytics (some "1") none 0 repoSingleA repoAllA debugA =
      .ok { analytics :=
              .single { adID := 1, clickCount := 3, lastHour := 1, lastDay := 2 },
            debug := some debugA } ∧
    (GetAnalytics none none 0 repoSingleA repoAllA debugA ≠
      .ok { analytics :=
              .many [{ adID := 1, clickCount := 3, lastHour := 1, lastDay := 2 }],
            debug := none }) := by
  exact ⟨rfl, by decide, by decide⟩

/-- C10: `video_playback_time` is not validated — any value, a negative
one included, is copied unchanged into the constructed event, and with
the ad found and the queue accepting the request still yields a 200. -/
theorem postClick_playback_unvalidated (q : ClickQueue) (req : ClickRequest)
    (lookupAd : Nat → LookupOutcome) (ad : Ad) (now : Int) (ip ua : String)
    (kafkaOk : Bool) (v : Int)
    (hlook : lookupAd req.adID = .found ad)
    (hcap : q.buffer.length < q.capacity) :
    (mkClickEvent { req with videoPlaybackTime := v } now ip ua).videoPlaybackTime = v ∧
    (PostClick q (some { req with videoPlaybackTime := v }) lookupAd now ip ua
        true true kafkaOk).1.response = .ok "recorded" := by
  refine ⟨rfl, ?_⟩
  simp [PostClick, hlook, Enqueue, hcap, finishClick]

/-- C10 witness: a negative playback time of -5 seconds is copied into
the event and the request is still answered 200. -/
theorem postClick_playback_unvalidated_witness :
    lookupFoundA reqA.adID = .found adA ∧
    (NewClickQueue 2).buffer.length < (NewClickQueue 2).capacity ∧
    ((mkClickEvent { reqA with videoPlaybackTime := -5 } 0 "ip" "ua").videoPlaybackTime = -5 ∧
     (PostClick (NewClickQueue 2) (some { reqA with videoPlaybackTime := -5 }) lookupFoundA 0 "ip" "ua"
        true true true).1.response = .ok "recorded") :=
  ⟨rfl, by decide,
    postClick_playback_unvalidated (NewClickQueue 2) reqA lookupFoundA adA 0 "ip" "ua"
      true (-5) rfl (by decide)⟩

end AdTracker
